import Mathlib

/-!
Verification of the `@zbdpay/agent-wallet` (`zbdw`) CLI wallet core:
the local payment ledger, the settlement-reconciliation projection for
paylinks, the destination router for `send`, the amount model, and the
consent gate for onchain payouts.

The TypeScript source is shallowly embedded:
pure functions become Lean functions, the file-backed ledger becomes an
explicit `List PaymentHistoryRecord` threaded through operations,
network calls become oracle functions supplied in an environment record,
and thrown `CliError`s become `Except CliErr` results.  JavaScript
strings are Lean `String`s; `String.prototype.trim`/`toLowerCase` are
modelled character-wise (`jsTrim`, `jsToLower`).  JavaScript numbers are
modelled as `Int`/`Nat`: every value the embedded code manipulates is an
integer, and `Number.isSafeInteger` becomes the explicit bound
`2 ^ 53 - 1`.
-/

/-- Whitespace test used by the model of `String.prototype.trim`. -/
def jsWhitespaceChar (c : Char) : Bool := c.isWhitespace

/-- Drop leading whitespace characters (the left half of `trim`). -/
def lstripChars (cs : List Char) : List Char := cs.dropWhile jsWhitespaceChar

/-- Drop trailing whitespace characters (the right half of `trim`). -/
def rstripChars (cs : List Char) : List Char :=
  ((cs.reverse).dropWhile jsWhitespaceChar).reverse

/-- Character-list model of `String.prototype.trim`. -/
def trimChars (cs : List Char) : List Char := rstripChars (lstripChars cs)

/-- Model of JavaScript `value.trim()`. -/
def jsTrim (s : String) : String := ⟨trimChars s.data⟩

/-- Model of JavaScript `value.toLowerCase()` (character-wise lowering). -/
def jsToLower (s : String) : String := ⟨s.data.map Char.toLower⟩

/-- Model of JavaScript `s.startsWith(p)`. -/
def startsWithStr (s p : String) : Bool := p.data.isPrefixOf s.data

/-- Model of JavaScript `s.includes("@")` for a single character. -/
def containsChar (s : String) (c : Char) : Bool := s.data.contains c

/-- Numeric value of a decimal digit string (the exact value that
`Number(text)` denotes when `text` matches `/^\d+$/`). -/
def digitsToNat (s : String) : Nat :=
  s.data.foldl (fun acc c => acc * 10 + (c.toNat - 48)) 0

/-- Test for `/^\d+$/`: one or more decimal digits and nothing else. -/
def isDigitString (s : String) : Bool :=
  !s.data.isEmpty && s.data.all Char.isDigit

theorem dropWhile_dropWhile_eq (p : Char → Bool) (l : List Char) :
    (l.dropWhile p).dropWhile p = l.dropWhile p := by
  induction l with
  | nil => rfl
  | cons a l ih =>
    by_cases h : p a = true
    · simpa [List.dropWhile, h] using ih
    · simp [List.dropWhile, h]

theorem head?_dropWhile_false (p : Char → Bool) (l : List Char) (a : Char)
    (h : (l.dropWhile p).head? = some a) : p a = false := by
  induction l with
  | nil => simp [List.dropWhile] at h
  | cons b l ih =>
    by_cases hb : p b = true
    · exact ih (by simpa [List.dropWhile, hb] using h)
    · simp [List.dropWhile, hb] at h
      subst h
      simpa [Bool.not_eq_true] using hb

theorem dropWhile_eq_self_of_head (p : Char → Bool) (l : List Char)
    (h : ∀ a, l.head? = some a → p a = false) : l.dropWhile p = l := by
  cases l with
  | nil => rfl
  | cons a l => simp [List.dropWhile, h a rfl]

theorem rstripChars_isPrefix (l : List Char) : (rstripChars l) <+: l := by
  have hs : (l.reverse.dropWhile jsWhitespaceChar) <:+ l.reverse :=
    List.dropWhile_suffix _
  have := List.reverse_prefix.mpr (by simpa using hs)
  simpa [rstripChars] using this

theorem rstripChars_idem (l : List Char) :
    rstripChars (rstripChars l) = rstripChars l := by
  simp [rstripChars, List.reverse_reverse, dropWhile_dropWhile_eq]

theorem lstripChars_rstripChars_lstripChars (l : List Char) :
    lstripChars (rstripChars (lstripChars l)) = rstripChars (lstripChars l) := by
  apply dropWhile_eq_self_of_head
  intro a ha
  obtain ⟨t, ht⟩ := rstripChars_isPrefix (lstripChars l)
  have hhead : (lstripChars l).head? = some a := by
    cases hr : rstripChars (lstripChars l) with
    | nil => rw [hr] at ha; simp at ha
    | cons b bs =>
      rw [hr] at ha ht
      simp at ha
      rw [← ht]
      simp [ha]
  exact head?_dropWhile_false jsWhitespaceChar l a hhead

theorem trimChars_idem (cs : List Char) : trimChars (trimChars cs) = trimChars cs := by
  unfold trimChars
  rw [lstripChars_rstripChars_lstripChars, rstripChars_idem]

theorem jsTrim_idem (s : String) : jsTrim (jsTrim s) = jsTrim s := by
  simp [jsTrim, trimChars_idem]

/-- Structured error carried by every failure path: a stable machine
code, a human message and a flat detail bag (source: `CliError` in
`src/output/json.ts`; detail objects are modelled as string pairs). -/
structure CliErr where
  code : String
  message : String
  details : List (String × String) := []
deriving DecidableEq, Repr

/-- The value held by a successful `Except CliErr` computation. -/
def okValue {α : Type} (r : Except CliErr α) : Option α :=
  match r with
  | .ok a => some a
  | .error _ => none

/-- The machine code of a failed `Except CliErr` computation. -/
def errCode {α : Type} (r : Except CliErr α) : Option String :=
  match r with
  | .ok _ => none
  | .error e => some e.code

/-- Amount-model wire conversion: display units (sats) to the
millisatoshi wire unit.  Source: the expressions `amountSats * 1000` in
`src/wallet/client.ts` (`sendPayment`, `createReceiveInvoice`,
`createWithdrawRequest`, `createStaticCharge`). -/
def toWireAmount (u : Nat) : Nat := u * 1000

/-- Amount-model display conversion: millisatoshi wire values to display
units with floor rounding.  Source: `Math.floor(msatValue / 1000)` in
`fetchWalletBalanceSats` and `Math.floor(value / 1000)` in `parseSats`
(`src/wallet/client.ts`); on non-negative integers `Math.floor` of the
exact quotient is Nat division. -/
def toDisplayUnits (m : Nat) : Nat := m / 1000

/-- Claim C8: amount round-trip and floor rounding.
For every non-negative integer `u`, `toDisplayUnits (toWireAmount u) = u`,
and the display conversion floor-rounds: `1999 ↦ 1`, `1000 ↦ 1`,
`999 ↦ 0`. -/
theorem amount_roundtrip_and_floor :
    (∀ u : Nat, toDisplayUnits (toWireAmount u) = u) ∧
    toDisplayUnits 1999 = 1 ∧ toDisplayUnits 1000 = 1 ∧ toDisplayUnits 999 = 0 := by
  refine ⟨fun u => ?_, rfl, rfl, rfl⟩
  simp [toDisplayUnits, toWireAmount]

/-- Canonical 5-state paylink lifecycle (source: `PaymentPaylinkLifecycle`
in `src/storage/payments.ts` and `PaylinkLifecycle` in
`src/wallet/client.ts`, identical unions). -/
inductive PaymentPaylinkLifecycle where
  | created
  | active
  | paid
  | expired
  | dead
deriving DecidableEq, Repr

/-- Ledger record kind (source: the `"send" | "receive"` union of the
`type` field of `PaymentHistoryRecord`). -/
inductive PaymentType where
  | send
  | receive
deriving DecidableEq, Repr

/-- One persisted ledger entry (source: interface `PaymentHistoryRecord`
in `src/storage/payments.ts`); optional fields become `Option`. -/
structure PaymentHistoryRecord where
  id : String
  type : PaymentType
  amount_sats : Int
  status : String
  timestamp : String
  fee_sats : Option Int := none
  preimage : Option String := none
  source : Option String := none
  paylink_id : Option String := none
  paylink_attempt_id : Option String := none
  paylink_lifecycle : Option PaymentPaylinkLifecycle := none
  paylink_amount_sats : Option Int := none
  onchain_network : Option String := none
  onchain_address : Option String := none
  onchain_payout_id : Option String := none
deriving DecidableEq, Repr

/-- Test `current.some((item) => item.id === record.id)` from
`appendPaymentIfMissingById`. -/
def hasRecordWithId (ledger : List PaymentHistoryRecord) (id : String) : Bool :=
  ledger.any (fun item => item.id == id)

/-- Number of ledger entries carrying a given id. -/
def countRecordsWithId (ledger : List PaymentHistoryRecord) (id : String) : Nat :=
  (ledger.filter (fun item => item.id == id)).length

/-- Idempotent append (source: `appendPaymentIfMissingById` in
`src/storage/payments.ts`).  The file-backed read-modify-write cycle is
modelled as explicit state passing: the function receives the current
ledger contents and returns the new contents together with the boolean
the source returns (`false` when a record with the same id exists and
nothing is written, `true` when the record was pushed). -/
def appendPaymentIfMissingById (record : PaymentHistoryRecord)
    (ledger : List PaymentHistoryRecord) : List PaymentHistoryRecord × Bool :=
  if hasRecordWithId ledger record.id then (ledger, false)
  else (ledger ++ [record], true)

/-- Unconditional append (source: `appendPayment` in
`src/storage/payments.ts`). -/
def appendPayment (record : PaymentHistoryRecord)
    (ledger : List PaymentHistoryRecord) : List PaymentHistoryRecord :=
  ledger ++ [record]

/-- Lookup by id (source: `findPaymentById`:
`current.find((item) => item.id === id) ?? null`). -/
def findPaymentById (id : String) (ledger : List PaymentHistoryRecord) :
    Option PaymentHistoryRecord :=
  ledger.find? (fun item => item.id == id)

theorem find?_append_left {α : Type} (p : α → Bool) (l l2 : List α) (a : α)
    (h : l.find? p = some a) : (l ++ l2).find? p = some a := by
  induction l with
  | nil => simp [List.find?] at h
  | cons b l ih =>
    cases hb : p b with
    | true =>
      rw [List.find?_cons_of_pos _ hb] at h
      rw [List.cons_append, List.find?_cons_of_pos _ hb]
      exact h
    | false =>
      rw [List.find?_cons_of_neg _ (by simp [hb])] at h
      rw [List.cons_append, List.find?_cons_of_neg _ (by simp [hb])]
      exact ih h

/-- Claim C1: `appendPaymentIfMissingById` is the idempotence primitive.
When a record with `r.id` is already present it returns `false` and
leaves the ledger unchanged; when absent it appends exactly the one
record `r` and returns `true`; hence two successive calls with records
sharing one id, starting from a ledger without that id, leave exactly
one record with that id in the ledger, and the second call returns
`false`. -/
theorem appendIfMissing_idempotence
    (ledger : List PaymentHistoryRecord) (r : PaymentHistoryRecord) :
    (hasRecordWithId ledger r.id = true →
      appendPaymentIfMissingById r ledger = (ledger, false)) ∧
    (hasRecordWithId ledger r.id = false →
      appendPaymentIfMissingById r ledger = (ledger ++ [r], true)) ∧
    (∀ r2 : PaymentHistoryRecord, r2.id = r.id →
      hasRecordWithId ledger r.id = false →
      appendPaymentIfMissingById r2 (appendPaymentIfMissingById r ledger).1 =
        ((appendPaymentIfMissingById r ledger).1, false) ∧
      countRecordsWithId
        (appendPaymentIfMissingById r2 (appendPaymentIfMissingById r ledger).1).1
        r.id = 1) := by
  refine ⟨fun h => ?_, fun h => ?_, fun r2 hid h => ?_⟩
  · simp [appendPaymentIfMissingById, h]
  · simp [appendPaymentIfMissingById, h]
  · have h1 : appendPaymentIfMissingById r ledger = (ledger ++ [r], true) := by
      simp [appendPaymentIfMissingById, h]
    have habs : ∀ item ∈ ledger, ¬item.id = r.id := by
      simpa [hasRecordWithId] using h
    have h2 : hasRecordWithId (ledger ++ [r]) r2.id = true := by
      simp [hasRecordWithId, hid]
    rw [h1]
    have hstep : appendPaymentIfMissingById r2 (ledger ++ [r]) = (ledger ++ [r], false) := by
      simp [appendPaymentIfMissingById, h2]
    refine ⟨hstep, ?_⟩
    rw [hstep]
    simp only [countRecordsWithId, List.filter_append]
    have hfil : ledger.filter (fun item => item.id == r.id) = [] :=
      List.filter_eq_nil_iff.mpr (fun a ha => by simpa using habs a ha)
    simp [hfil]

/-- Witness for C1 at concrete inputs: a ledger already holding the id
rejects the append unchanged; the empty ledger accepts it, and the
two-call scenario leaves exactly one record and returns `false`. -/
theorem appendIfMissing_idempotence_witness :
    (appendPaymentIfMissingById
        { id := "pay_001", type := PaymentType.send, amount_sats := 500,
          status := "completed", timestamp := "2026-02-25T00:00:00.000Z" }
        [{ id := "pay_001", type := PaymentType.send, amount_sats := 500,
           status := "completed", timestamp := "2026-02-25T00:00:00.000Z" }] =
      ([{ id := "pay_001", type := PaymentType.send, amount_sats := 500,
          status := "completed", timestamp := "2026-02-25T00:00:00.000Z" }], false)) ∧
    (appendPaymentIfMissingById
        { id := "pay_001", type := PaymentType.send, amount_sats := 500,
          status := "completed", timestamp := "2026-02-25T00:00:00.000Z" } [] =
      ([{ id := "pay_001", type := PaymentType.send, amount_sats := 500,
          status := "completed", timestamp := "2026-02-25T00:00:00.000Z" }], true)) := by
  constructor
  · exact (appendIfMissing_idempotence
      [{ id := "pay_001", type := PaymentType.send, amount_sats := 500,
         status := "completed", timestamp := "2026-02-25T00:00:00.000Z" }]
      { id := "pay_001", type := PaymentType.send, amount_sats := 500,
        status := "completed", timestamp := "2026-02-25T00:00:00.000Z" }).1 (by decide)
  · exact (appendIfMissing_idempotence []
      { id := "pay_001", type := PaymentType.send, amount_sats := 500,
        status := "completed", timestamp := "2026-02-25T00:00:00.000Z" }).2.1 (by decide)

/-- Normalized settlement status (source: `PaymentSettlement["status"]`
from `@zbdpay/agent-fetch`, the codomain of `mapSettlementStatus`). -/
inductive SettlementStatus where
  | completed
  | failed
  | pending
deriving DecidableEq, Repr

/-- String written into the ledger record's `status` field for a
normalized settlement status. -/
def settlementStatusString (s : SettlementStatus) : String :=
  match s with
  | .completed => "completed"
  | .failed => "failed"
  | .pending => "pending"

/-- Status normalization (source: `mapSettlementStatus` in
`src/commands/register.ts`). -/
def mapSettlementStatus (status : String) : SettlementStatus :=
  let normalized := jsToLower (jsTrim status)
  if normalized == "completed" || normalized == "paid" || normalized == "settled" then
    SettlementStatus.completed
  else if normalized == "failed" || normalized == "error" || normalized == "cancelled" then
    SettlementStatus.failed
  else
    SettlementStatus.pending

/-- Settlement-to-lifecycle projection (source:
`mapPaylinkLifecycleFromSettlementStatus` in `src/commands/register.ts`). -/
def mapPaylinkLifecycleFromSettlementStatus (settlementStatus : SettlementStatus)
    (currentLifecycle : PaymentPaylinkLifecycle) : PaymentPaylinkLifecycle :=
  if settlementStatus = SettlementStatus.completed then
    PaymentPaylinkLifecycle.paid
  else if settlementStatus = SettlementStatus.failed then
    (if currentLifecycle = PaymentPaylinkLifecycle.expired then
      PaymentPaylinkLifecycle.expired
    else PaymentPaylinkLifecycle.dead)
  else if currentLifecycle = PaymentPaylinkLifecycle.created ∨
      currentLifecycle = PaymentPaylinkLifecycle.active then
    currentLifecycle
  else
    PaymentPaylinkLifecycle.active

/-- The lifecycle the claim's own wording prescribes, written from the
claim text (C7) for comparison with the source function: `paid` when the
settlement is completed; on failure, `expired` when the current
lifecycle already is `expired` and `dead` otherwise; on a pending
settlement the current lifecycle itself when it is `created` or
`active`, and `active` in all remaining cases. -/
def claimProjectedLifecycle (s : SettlementStatus)
    (L : PaymentPaylinkLifecycle) : PaymentPaylinkLifecycle :=
  match s with
  | .completed => .paid
  | .failed => if L = .expired then .expired else .dead
  | .pending => if L = .created ∨ L = .active then L else .active

/-- Claim C7: for every current lifecycle and every normalized settlement
status, the derived lifecycle equals exactly what the claim prescribes
(completed ↦ paid; failed ↦ expired when already expired else dead;
pending ↦ the current lifecycle when created/active else active). -/
theorem projection_matches_claimed_lifecycle :
    ∀ (s : SettlementStatus) (L : PaymentPaylinkLifecycle),
      mapPaylinkLifecycleFromSettlementStatus s L = claimProjectedLifecycle s L := by
  intro s L
  cases s <;> cases L <;> rfl

/-- Paylink metadata block (source: the `metadata` field of
`PaylinkResult` in `src/wallet/client.ts`). -/
structure PaylinkMetadata where
  title : Option String := none
  description : Option String := none
  order_id : Option String := none
  customer_ref : Option String := none
  campaign : Option String := none
deriving DecidableEq, Repr

/-- Amount mode of a paylink (source: the `"fixed" | "range"` union). -/
inductive PaylinkAmountMode where
  | fixed
  | range
deriving DecidableEq, Repr

/-- Normalized paylink (source: interface `PaylinkResult` in
`src/wallet/client.ts`).  Nullable/optional fields become `Option`. -/
structure PaylinkResult where
  id : String
  url : Option String := none
  status : String
  lifecycle : PaymentPaylinkLifecycle
  amount_mode : PaylinkAmountMode := PaylinkAmountMode.fixed
  amount_sats : Option Int := none
  min_amount_sats : Option Int := none
  max_amount_sats : Option Int := none
  multi_use : Bool := false
  max_uses : Option Int := none
  use_count : Option Int := none
  metadata : Option PaylinkMetadata := none
  created_at : Option String := none
  updated_at : Option String := none
  active_attempt_id : Option String := none
  latest_attempt_id : Option String := none
  paid_payment_id : Option String := none
deriving DecidableEq, Repr

/-- Normalized payment detail (source: interface `PaymentDetailResult`
in `src/wallet/client.ts`, the value `fetchPaymentDetail` returns). -/
structure PaymentDetail where
  id : String
  type : PaymentType
  amount_sats : Int
  fee_sats : Int
  status : String
  preimage : Option String := none
  timestamp : String
deriving DecidableEq, Repr

/-- The attempt id the reconciler settles against (source:
`paylink.paid_payment_id ?? paylink.latest_attempt_id ??
paylink.active_attempt_id` in `syncPaylinkSettlementProjection`). -/
def settlementPaymentId (paylink : PaylinkResult) : Option String :=
  match paylink.paid_payment_id with
  | some v => some v
  | none =>
    match paylink.latest_attempt_id with
    | some v => some v
    | none => paylink.active_attempt_id

/-- The ledger record `syncPaylinkSettlementProjection` hands to
`appendPaymentIfMissingById` (source: the object literal in
`src/commands/register.ts` lines 736-748). -/
def paylinkSettlementRecord (paylink : PaylinkResult) (attemptId : String)
    (detail : PaymentDetail) : PaymentHistoryRecord :=
  let settlementStatus := mapSettlementStatus detail.status
  { id := detail.id
    type := PaymentType.receive
    amount_sats := detail.amount_sats
    status := settlementStatusString settlementStatus
    timestamp := detail.timestamp
    preimage := detail.preimage
    source := some "paylink"
    paylink_id := some paylink.id
    paylink_attempt_id := some attemptId
    paylink_lifecycle :=
      some (mapPaylinkLifecycleFromSettlementStatus settlementStatus paylink.lifecycle)
    paylink_amount_sats := paylink.amount_sats }

/-- Best-effort settlement reconciliation (source:
`syncPaylinkSettlementProjection` in `src/commands/register.ts`).  The
charge fetch becomes the oracle `fetchDetail`; the file-backed ledger is
threaded explicitly.  The source contains no try/catch, so a failing
`fetchPaymentDetail` propagates as `Except.error`. -/
def syncPaylinkSettlementProjection (paylink : PaylinkResult)
    (fetchDetail : String → Except CliErr PaymentDetail)
    (ledger : List PaymentHistoryRecord) :
    Except CliErr (List PaymentHistoryRecord) :=
  match settlementPaymentId paylink with
  | none => Except.ok ledger
  | some pid =>
    match fetchDetail pid with
    | Except.error e => Except.error e
    | Except.ok detail =>
      Except.ok (appendPaymentIfMissingById
        (paylinkSettlementRecord paylink pid detail) ledger).1

/-- Claim C3: terminal invariance at the ledger.  A record already in
the ledger whose `paylink_lifecycle` is `paid`, `expired` or `dead` is
returned unchanged by id lookup after any settlement reconciliation
pass: the projection never rewrites it (in particular never back to
`created` or `active`), because `appendPaymentIfMissingById` only ever
appends a record whose id is absent. -/
theorem paylink_terminal_lifecycle_preserved
    (paylink : PaylinkResult) (fetchDetail : String → Except CliErr PaymentDetail)
    (ledger newLedger : List PaymentHistoryRecord) (rec : PaymentHistoryRecord)
    (hsync : syncPaylinkSettlementProjection paylink fetchDetail ledger =
      Except.ok newLedger)
    (hfind : findPaymentById rec.id ledger = some rec)
    (hterm : rec.paylink_lifecycle = some PaymentPaylinkLifecycle.paid ∨
      rec.paylink_lifecycle = some PaymentPaylinkLifecycle.expired ∨
      rec.paylink_lifecycle = some PaymentPaylinkLifecycle.dead) :
    findPaymentById rec.id newLedger = some rec := by
  cases hpid : settlementPaymentId paylink with
  | none =>
    simp only [syncPaylinkSettlementProjection, hpid, Except.ok.injEq] at hsync
    rw [← hsync]
    exact hfind
  | some pid =>
    cases hdet : fetchDetail pid with
    | error e =>
      simp only [syncPaylinkSettlementProjection, hpid, hdet] at hsync
      exact absurd hsync (by simp)
    | ok detail =>
      simp only [syncPaylinkSettlementProjection, hpid, hdet, Except.ok.injEq] at hsync
      rw [← hsync]
      unfold appendPaymentIfMissingById
      by_cases hex : hasRecordWithId ledger (paylinkSettlementRecord paylink pid detail).id = true
      · simp only [hex, if_true]
        exact hfind
      · simp only [Bool.not_eq_true] at hex
        simp only [hex, Bool.false_eq_true, if_false]
        exact find?_append_left _ _ _ _ hfind

/-- Witness for C3 at a concrete input: a ledger holding a `paid`
settlement record is reconciled against a fresh completed attempt; the
old record comes back unchanged from lookup. -/
theorem paylink_terminal_lifecycle_preserved_witness :
    findPaymentById "ch_old"
        ((appendPaymentIfMissingById
            (paylinkSettlementRecord
              { id := "pl_1", status := "active",
                lifecycle := PaymentPaylinkLifecycle.active,
                amount_sats := some 333, latest_attempt_id := some "ch_new" }
              "ch_new"
              { id := "ch_new", type := PaymentType.receive, amount_sats := 333,
                fee_sats := 0, status := "completed",
                timestamp := "2026-02-26T11:00:11.000Z" })
            [{ id := "ch_old", type := PaymentType.receive, amount_sats := 100,
               status := "completed", timestamp := "2026-02-26T10:00:00.000Z",
               paylink_lifecycle := some PaymentPaylinkLifecycle.paid }]).1) =
      some { id := "ch_old", type := PaymentType.receive, amount_sats := 100,
             status := "completed", timestamp := "2026-02-26T10:00:00.000Z",
             paylink_lifecycle := some PaymentPaylinkLifecycle.paid } := by
  exact paylink_terminal_lifecycle_preserved
    { id := "pl_1", status := "active",
      lifecycle := PaymentPaylinkLifecycle.active,
      amount_sats := some 333, latest_attempt_id := some "ch_new" }
    (fun _ => Except.ok
      { id := "ch_new", type := PaymentType.receive, amount_sats := 333,
        fee_sats := 0, status := "completed",
        timestamp := "2026-02-26T11:00:11.000Z" })
    [{ id := "ch_old", type := PaymentType.receive, amount_sats := 100,
       status := "completed", timestamp := "2026-02-26T10:00:00.000Z",
       paylink_lifecycle := some PaymentPaylinkLifecycle.paid }]
    _
    { id := "ch_old", type := PaymentType.receive, amount_sats := 100,
      status := "completed", timestamp := "2026-02-26T10:00:00.000Z",
      paylink_lifecycle := some PaymentPaylinkLifecycle.paid }
    rfl rfl (Or.inl rfl)

/-- Provenance of the resolved API key (source: the `keySource` union
`"flag" | "env" | "config"` in `resolveApiKey`). -/
inductive KeySource where
  | flag
  | env
  | config
deriving DecidableEq, Repr

/-- Trim-and-reject-empty key normalization (source: `normalizeApiKey`
in `src/wallet/client.ts`). -/
def normalizeApiKey (value : Option String) : Option String :=
  match value with
  | none => none
  | some v => if jsTrim v = "" then none else some (jsTrim v)

/-- Credential resolution (source: `resolveApiKey` in
`src/wallet/client.ts`): flag key, then environment key, then — when
config fallback is allowed — the config key, else `missing_api_key`. -/
def resolveApiKey (flagKey envKey configKey : Option String)
    (allowConfigFallback : Bool) : Except CliErr (String × KeySource) :=
  match normalizeApiKey flagKey with
  | some k => Except.ok (k, KeySource.flag)
  | none =>
    match normalizeApiKey envKey with
    | some k => Except.ok (k, KeySource.env)
    | none =>
      match (if allowConfigFallback then normalizeApiKey configKey else none) with
      | some k => Except.ok (k, KeySource.config)
      | none =>
        Except.error
          { code := "missing_api_key",
            message := "API key is required. Provide --key or set ZBD_API_KEY." }

/-- JSON payload `paylink get` writes on success (source: the
`writeJson` object literal in the `paylink get` action,
`src/commands/register.ts` lines 287-295). -/
structure PaylinkGetOutput where
  id : String
  url : Option String
  status : String
  lifecycle : PaymentPaylinkLifecycle
  amount_sats : Option Int
  created_at : Option String
  updated_at : Option String
deriving DecidableEq, Repr

/-- The `paylink get` command action (source: the `paylink get` handler
in `src/commands/register.ts` lines 273-296): resolve credentials,
fetch the paylink (oracle `fetchPaylinkResult`), run
`syncPaylinkSettlementProjection`, then emit the output.  The source
wraps none of these steps in a try/catch, so every failure — including
one inside the settlement projection — propagates. -/
def paylinkGetAction (envKey configKey : Option String)
    (fetchPaylinkResult : Except CliErr PaylinkResult)
    (fetchDetail : String → Except CliErr PaymentDetail)
    (ledger : List PaymentHistoryRecord) :
    Except CliErr (PaylinkGetOutput × List PaymentHistoryRecord) :=
  match resolveApiKey none envKey configKey true with
  | Except.error e => Except.error e
  | Except.ok _ =>
    match fetchPaylinkResult with
    | Except.error e => Except.error e
    | Except.ok result =>
      match syncPaylinkSettlementProjection result fetchDetail ledger with
      | Except.error e => Except.error e
      | Except.ok newLedger =>
        Except.ok
          ({ id := result.id, url := result.url, status := result.status,
             lifecycle := result.lifecycle, amount_sats := result.amount_sats,
             created_at := result.created_at, updated_at := result.updated_at },
           newLedger)

/-- Claim C2 (code-bug exhibit): evaluation of `paylink get` at the
failing input.  The paylink fetch itself succeeds (with a settlement
pointer `ch_x`), the settlement-detail fetch fails, and the whole
command returns that error instead of the paylink payload: the
reconciliation failure is NOT swallowed, contradicting the claim and
the repository's own troubleshooting notes. -/
theorem paylink_get_propagates_settlement_fetch_failure :
    paylinkGetAction none (some "config-key-123")
        (Except.ok
          { id := "pl_x", url := some "https://zbd.ai/paylinks/pl_x",
            status := "active", lifecycle := PaymentPaylinkLifecycle.active,
            amount_sats := some 120, latest_attempt_id := some "ch_x" })
        (fun _ => Except.error
          { code := "wallet_request_failed", message := "ZBD API request failed",
            details := [("status", "500"), ("path", "/v0/charges/ch_x")] })
        [] =
      Except.error
        { code := "wallet_request_failed", message := "ZBD API request failed",
          details := [("status", "500"), ("path", "/v0/charges/ch_x")] } := rfl

/-- Destination kinds (source: type `SendDestinationKind` in
`src/wallet/client.ts`). -/
inductive SendDestinationKind where
  | bolt11
  | ln_address
  | gamertag
  | lnurl
deriving DecidableEq, Repr

/-- Destination router (source: `detectDestination` in
`src/commands/register.ts`): the trimmed, lowercased destination is
matched first against the `lnbc` and `lnurl` leaders, then a leading
`@`, then any `@`; everything else raises `unsupported_destination`
carrying the raw destination. -/
def detectDestination (destination : String) : Except CliErr SendDestinationKind :=
  let normalized := jsToLower (jsTrim destination)
  if startsWithStr normalized "lnbc" then Except.ok SendDestinationKind.bolt11
  else if startsWithStr normalized "lnurl" then Except.ok SendDestinationKind.lnurl
  else if startsWithStr normalized "@" then Except.ok SendDestinationKind.gamertag
  else if containsChar normalized '@' then Except.ok SendDestinationKind.ln_address
  else
    Except.error
      { code := "unsupported_destination", message := "Unsupported destination format",
        details := [("destination", destination)] }

/-- Outbound request body of `sendPayment` (source: the three object
literals in `src/wallet/client.ts` lines 357-382).  Each constructor
carries exactly the fields of the corresponding JavaScript object: the
bolt11 body is only `{ invoice }` — it has no amount field. -/
inductive SendPayload where
  | bolt11Body (invoice : String)
  | lnAddressBody (lnAddress : String) (amount : String) (comment : String)
  | gamertagBody (gamertag : String) (amount : String) (description : String)
deriving DecidableEq, Repr

/-- Outbound request of `sendPayment`: endpoint path plus body. -/
structure SendRequest where
  path : String
  payload : SendPayload
deriving DecidableEq, Repr

/-- Strip every leading `@` (source:
`destination.trim().replace(/^@+/, "")` in `sendPayment`). -/
def stripLeadingAts (s : String) : String :=
  ⟨(jsTrim s).data.dropWhile (fun c => c == '@')⟩

/-- Request construction of `sendPayment` before the network call
(source: `sendPayment` in `src/wallet/client.ts` lines 346-387): bolt11
posts `{ invoice }` to `/v0/payments`; LNURL and Lightning addresses
post `{ lnAddress, amount: String(amountSats * 1000), comment }` to
`/v0/ln-address/send-payment`; gamertags are stripped of leading `@`
(an empty remainder raises `invalid_gamertag`) and post
`{ gamertag, amount: String(amountSats * 1000), description }` to
`/v0/gamertag/send-payment`. -/
def buildSendRequest (destination : String) (amountSats : Nat)
    (kind : SendDestinationKind) : Except CliErr SendRequest :=
  match kind with
  | SendDestinationKind.bolt11 =>
    Except.ok { path := "/v0/payments", payload := SendPayload.bolt11Body destination }
  | SendDestinationKind.ln_address =>
    Except.ok
      { path := "/v0/ln-address/send-payment",
        payload := SendPayload.lnAddressBody destination
          (toString (toWireAmount amountSats)) "Sent via zbdw" }
  | SendDestinationKind.lnurl =>
    Except.ok
      { path := "/v0/ln-address/send-payment",
        payload := SendPayload.lnAddressBody destination
          (toString (toWireAmount amountSats)) "Sent via zbdw" }
  | SendDestinationKind.gamertag =>
    let normalizedGamertag := stripLeadingAts destination
    if normalizedGamertag = "" then
      Except.error
        { code := "invalid_gamertag", message := "Gamertag destination is invalid",
          details := [("destination", destination)] }
    else
      Except.ok
        { path := "/v0/gamertag/send-payment",
          payload := SendPayload.gamertagBody normalizedGamertag
            (toString (toWireAmount amountSats)) "Sent via zbdw" }

/-- Display-amount parser (source: `parseAmountSats` in
`src/commands/register.ts`).  `Number.isSafeInteger` on the value of a
digit string is modelled exactly: for a value `v ≤ 2 ^ 53 - 1` the
double is `v` itself and safe; for `v ≥ 2 ^ 53` the nearest double is
at least `2 ^ 53` and never safe, so the guard rejects it. -/
def parseAmountSats (value : Option String) : Except CliErr Nat :=
  match value with
  | none =>
    Except.error { code := "invalid_amount", message := "Amount in sats is required" }
  | some s =>
    if jsTrim s = "" then
      Except.error { code := "invalid_amount", message := "Amount in sats is required" }
    else if !isDigitString (jsTrim s) then
      Except.error
        { code := "invalid_amount", message := "Amount must be a positive integer in sats",
          details := [("amount_sats", s)] }
    else
      let amount := digitsToNat (jsTrim s)
      if amount = 0 ∨ amount > 9007199254740991 then
        Except.error
          { code := "invalid_amount", message := "Amount must be a positive integer in sats",
            details := [("amount_sats", s)] }
      else Except.ok amount

/-- Observable steps of the `send` command, in program order. -/
inductive SendEvent where
  | resolveCredentials
  | network (path : String) (payload : SendPayload)
  | ledgerAppend (id : String)
deriving DecidableEq, Repr

/-- Normalized reply of a successful send (source: the fields
`sendPayment` extracts from the response body; the response-shape
normalizer is the out-of-scope collaborator, so the oracle returns the
extracted fields directly). -/
structure SendWireReply where
  payment_id : String
  fee_sats : Int
  status : String
  preimage : Option String := none
  timestamp : String
deriving DecidableEq, Repr

/-- Environment of one `send` invocation: the ambient key material and
the outcome of the upstream payment call. -/
structure SendEnv where
  envKey : Option String := none
  configKey : Option String := none
  sendReply : SendRequest → Except CliErr SendWireReply

/-- JSON payload `send` writes on success (source: the `writeJson`
object literal in the `send` action, lines 198-203). -/
structure SendCommandOutput where
  payment_id : String
  fee_sats : Int
  status : String
  preimage : Option String
deriving DecidableEq, Repr

/-- The `send` command action (source: the `send` handler in
`src/commands/register.ts` lines 169-204), with its exact program
order: load config (local), resolve credentials, parse the amount,
classify the destination, send the payment (request construction, then
the network call), append to the ledger, emit output.  The returned
event list records, in order, the credential resolution, the outbound
network request and the ledger append that actually happened. -/
def sendAction (env : SendEnv) (destination amountText : String) :
    List SendEvent × Except CliErr SendCommandOutput :=
  match resolveApiKey none env.envKey env.configKey true with
  | Except.error e => ([SendEvent.resolveCredentials], Except.error e)
  | Except.ok _ =>
    match parseAmountSats (some amountText) with
    | Except.error e => ([SendEvent.resolveCredentials], Except.error e)
    | Except.ok amount =>
      match detectDestination destination with
      | Except.error e => ([SendEvent.resolveCredentials], Except.error e)
      | Except.ok kind =>
        match buildSendRequest destination amount kind with
        | Except.error e => ([SendEvent.resolveCredentials], Except.error e)
        | Except.ok req =>
          match env.sendReply req with
          | Except.error e =>
            ([SendEvent.resolveCredentials, SendEvent.network req.path req.payload],
             Except.error e)
          | Except.ok reply =>
            ([SendEvent.resolveCredentials, SendEvent.network req.path req.payload,
              SendEvent.ledgerAppend reply.payment_id],
             Except.ok
               { payment_id := reply.payment_id, fee_sats := reply.fee_sats,
                 status := reply.status, preimage := reply.preimage })

/-- Counterexample to C4 as stated: `"LNBC1"` literally starts with none
of `lnbc`, `lnurl`, `@` and contains no `@`, so the claim classifies it
`unsupported_destination`; the code lowercases first and classifies it
bolt11. -/
theorem destination_router_literal_counterexample :
    startsWithStr "LNBC1" "lnbc" = false ∧
    startsWithStr "LNBC1" "lnurl" = false ∧
    startsWithStr "LNBC1" "@" = false ∧
    containsChar "LNBC1" '@' = false ∧
    detectDestination "LNBC1" = Except.ok SendDestinationKind.bolt11 :=
  ⟨rfl, rfl, rfl, rfl, rfl⟩

/-- Claim C4 (amended): first-match-wins classification of the trimmed,
lowercased destination, together with the outbound request shape per
kind: bolt11 carries only the invoice text (no amount field); LNURL and
Lightning addresses carry the wire-unit amount, the raw destination and
the fixed comment; gamertags are stripped of all leading `@` (an empty
remainder fails as `invalid_gamertag`); anything else fails as
`unsupported_destination` preserving the raw destination in the error
detail. -/
theorem destination_router_classification (d : String) (amountSats : Nat) :
    (startsWithStr (jsToLower (jsTrim d)) "lnbc" = true →
      detectDestination d = Except.ok SendDestinationKind.bolt11 ∧
      buildSendRequest d amountSats SendDestinationKind.bolt11 =
        Except.ok { path := "/v0/payments", payload := SendPayload.bolt11Body d }) ∧
    (startsWithStr (jsToLower (jsTrim d)) "lnbc" = false →
     startsWithStr (jsToLower (jsTrim d)) "lnurl" = true →
      detectDestination d = Except.ok SendDestinationKind.lnurl ∧
      buildSendRequest d amountSats SendDestinationKind.lnurl =
        Except.ok
          { path := "/v0/ln-address/send-payment",
            payload := SendPayload.lnAddressBody d
              (toString (toWireAmount amountSats)) "Sent via zbdw" }) ∧
    (startsWithStr (jsToLower (jsTrim d)) "lnbc" = false →
     startsWithStr (jsToLower (jsTrim d)) "lnurl" = false →
     startsWithStr (jsToLower (jsTrim d)) "@" = true →
      detectDestination d = Except.ok SendDestinationKind.gamertag ∧
      (stripLeadingAts d = "" →
        buildSendRequest d amountSats SendDestinationKind.gamertag =
          Except.error
            { code := "invalid_gamertag", message := "Gamertag destination is invalid",
              details := [("destination", d)] }) ∧
      (stripLeadingAts d ≠ "" →
        buildSendRequest d amountSats SendDestinationKind.gamertag =
          Except.ok
            { path := "/v0/gamertag/send-payment",
              payload := SendPayload.gamertagBody (stripLeadingAts d)
                (toString (toWireAmount amountSats)) "Sent via zbdw" })) ∧
    (startsWithStr (jsToLower (jsTrim d)) "lnbc" = false →
     startsWithStr (jsToLower (jsTrim d)) "lnurl" = false →
     startsWithStr (jsToLower (jsTrim d)) "@" = false →
     containsChar (jsToLower (jsTrim d)) '@' = true →
      detectDestination d = Except.ok SendDestinationKind.ln_address ∧
      buildSendRequest d amountSats SendDestinationKind.ln_address =
        Except.ok
          { path := "/v0/ln-address/send-payment",
            payload := SendPayload.lnAddressBody d
              (toString (toWireAmount amountSats)) "Sent via zbdw" }) ∧
    (startsWithStr (jsToLower (jsTrim d)) "lnbc" = false →
     startsWithStr (jsToLower (jsTrim d)) "lnurl" = false →
     startsWithStr (jsToLower (jsTrim d)) "@" = false →
     containsChar (jsToLower (jsTrim d)) '@' = false →
      detectDestination d =
        Except.error
          { code := "unsupported_destination",
            message := "Unsupported destination format",
            details := [("destination", d)] }) := by
  refine ⟨fun h1 => ⟨?_, rfl⟩, fun h1 h2 => ⟨?_, rfl⟩,
    fun h1 h2 h3 => ⟨?_, fun hg => ?_, fun hg => ?_⟩,
    fun h1 h2 h3 h4 => ⟨?_, rfl⟩, fun h1 h2 h3 h4 => ?_⟩
  · simp [detectDestination, h1]
  · simp [detectDestination, h1, h2]
  · simp [detectDestination, h1, h2, h3]
  · simp [buildSendRequest, hg]
  · simp [buildSendRequest, hg]
  · simp [detectDestination, h1, h2, h3, h4]
  · simp [detectDestination, h1, h2, h3, h4]

/-- Witness for the amended C4, one concrete destination per branch,
with the exact outbound shapes the tests pin down (wire amounts `11000`,
`12000`, `13000` for 11, 12, 13 sats). -/
theorem destination_router_classification_witness :
    (detectDestination "lnbc1exampleinvoice" = Except.ok SendDestinationKind.bolt11 ∧
     buildSendRequest "lnbc1exampleinvoice" 10 SendDestinationKind.bolt11 =
       Except.ok { path := "/v0/payments",
                   payload := SendPayload.bolt11Body "lnbc1exampleinvoice" }) ∧
    (detectDestination "lnurl1dp68gurn8ghj7" = Except.ok SendDestinationKind.lnurl ∧
     buildSendRequest "lnurl1dp68gurn8ghj7" 13 SendDestinationKind.lnurl =
       Except.ok { path := "/v0/ln-address/send-payment",
                   payload := SendPayload.lnAddressBody "lnurl1dp68gurn8ghj7"
                     "13000" "Sent via zbdw" }) ∧
    (detectDestination "@agent" = Except.ok SendDestinationKind.gamertag ∧
     buildSendRequest "@agent" 12 SendDestinationKind.gamertag =
       Except.ok { path := "/v0/gamertag/send-payment",
                   payload := SendPayload.gamertagBody "agent" "12000" "Sent via zbdw" }) ∧
    (detectDestination "@@@" = Except.ok SendDestinationKind.gamertag ∧
     buildSendRequest "@@@" 5 SendDestinationKind.gamertag =
       Except.error
         { code := "invalid_gamertag", message := "Gamertag destination is invalid",
           details := [("destination", "@@@")] }) ∧
    (detectDestination "agent@example.com" = Except.ok SendDestinationKind.ln_address ∧
     buildSendRequest "agent@example.com" 11 SendDestinationKind.ln_address =
       Except.ok { path := "/v0/ln-address/send-payment",
                   payload := SendPayload.lnAddressBody "agent@example.com"
                     "11000" "Sent via zbdw" }) ∧
    detectDestination "invalid-destination" =
      Except.error
        { code := "unsupported_destination", message := "Unsupported destination format",
          details := [("destination", "invalid-destination")] } := by
  refine ⟨?_, ?_, ?_, ?_, ?_, ?_⟩
  · exact (destination_router_classification "lnbc1exampleinvoice" 10).1 rfl
  · exact (destination_router_classification "lnurl1dp68gurn8ghj7" 13).2.1 rfl rfl
  · have h := (destination_router_classification "@agent" 12).2.2.1 rfl rfl rfl
    exact ⟨h.1, h.2.2 (by decide)⟩
  · have h := (destination_router_classification "@@@" 5).2.2.1 rfl rfl rfl
    exact ⟨h.1, h.2.1 rfl⟩
  · exact (destination_router_classification "agent@example.com" 11).2.2.2.1 rfl rfl rfl rfl
  · exact (destination_router_classification "invalid-destination" 0).2.2.2.2 rfl rfl rfl rfl

/-- Counterexample to C9 as stated: `"9007199254740992"` (2^53) is an
unsigned integer string representing a value ≥ 1, yet the parser
rejects it, because `Number.isSafeInteger` bounds accepted values by
2^53 − 1. -/
theorem parse_amount_safe_integer_counterexample :
    isDigitString "9007199254740992" = true ∧
    1 ≤ digitsToNat "9007199254740992" ∧
    parseAmountSats (some "9007199254740992") =
      Except.error
        { code := "invalid_amount", message := "Amount must be a positive integer in sats",
          details := [("amount_sats", "9007199254740992")] } := by
  refine ⟨rfl, by decide, rfl⟩

/-- Claim C9 (amended): `parseAmountSats` returns an integer exactly
when the trimmed text is an unsigned-integer string whose value `v`
satisfies `1 ≤ v ≤ 2^53 − 1` (the safe-integer bound), in which case it
returns `v`; otherwise it fails with the `invalid_amount` error code.
An unparseable amount makes the `send` command fail before any outbound
request or ledger append: its event trace holds at most the local
credential-resolution step, and when credentials resolve the command's
result is exactly the parse error. -/
theorem parse_amount_characterization :
    (∀ s : String,
      okValue (parseAmountSats (some s)) =
        (if isDigitString (jsTrim s) = true ∧ 1 ≤ digitsToNat (jsTrim s) ∧
            digitsToNat (jsTrim s) ≤ 9007199254740991
         then some (digitsToNat (jsTrim s)) else none) ∧
      errCode (parseAmountSats (some s)) =
        (if isDigitString (jsTrim s) = true ∧ 1 ≤ digitsToNat (jsTrim s) ∧
            digitsToNat (jsTrim s) ≤ 9007199254740991
         then none else some "invalid_amount")) ∧
    errCode (parseAmountSats none) = some "invalid_amount" ∧
    (∀ (env : SendEnv) (destination amountText : String) (e : CliErr),
      parseAmountSats (some amountText) = Except.error e →
      (∀ ev ∈ (sendAction env destination amountText).1,
        ev = SendEvent.resolveCredentials) ∧
      (∀ (key : String) (src : KeySource),
        resolveApiKey none env.envKey env.configKey true = Except.ok (key, src) →
        (sendAction env destination amountText).2 = Except.error e)) := by
  refine ⟨fun s => ?_, rfl, fun env destination amountText e hparse => ?_⟩
  · by_cases h0 : jsTrim s = ""
    · have hds : isDigitString "" = false := by decide
      simp [parseAmountSats, h0, hds, okValue, errCode]
    · by_cases h1 : isDigitString (jsTrim s) = true
      · by_cases h2 : digitsToNat (jsTrim s) = 0 ∨ digitsToNat (jsTrim s) > 9007199254740991
        · have hc2 : ¬(1 ≤ digitsToNat (jsTrim s) ∧
              digitsToNat (jsTrim s) ≤ 9007199254740991) := by omega
          simp [parseAmountSats, h0, h1, h2, hc2, okValue, errCode]
        · have hc3 : 1 ≤ digitsToNat (jsTrim s) ∧
              digitsToNat (jsTrim s) ≤ 9007199254740991 := by
            push_neg at h2
            omega
          simp [parseAmountSats, h0, h1, h2, hc3, okValue, errCode]
      · have h1f : isDigitString (jsTrim s) = false := by
          simpa [Bool.not_eq_true] using h1
        simp [parseAmountSats, h0, h1f, okValue, errCode]
  · cases hk : resolveApiKey none env.envKey env.configKey true with
    | error e2 =>
      constructor
      · intro ev hev
        simp [sendAction, hk] at hev
        exact hev
      · intro key src hk2
        simp at hk2
    | ok pair =>
      constructor
      · intro ev hev
        simp [sendAction, hk, hparse] at hev
        exact hev
      · intro key src hk2
        simp [sendAction, hk, hparse]

/-- Witness for the amended C9: the valid text `"21"` parses to 21, the
non-numeric text `"nope"` leaves the send trace with only the local
credential-resolution step and makes the command fail with the parse
error. -/
theorem parse_amount_characterization_witness :
    okValue (parseAmountSats (some "21")) =
      (if isDigitString (jsTrim "21") = true ∧ 1 ≤ digitsToNat (jsTrim "21") ∧
          digitsToNat (jsTrim "21") ≤ 9007199254740991
       then some (digitsToNat (jsTrim "21")) else none) ∧
    (∀ ev ∈ (sendAction
        { envKey := some "env-key-123",
          sendReply := fun _ =>
            Except.error { code := "wallet_unreachable", message := "unused" } }
        "agent@example.com" "nope").1,
      ev = SendEvent.resolveCredentials) ∧
    (sendAction
        { envKey := some "env-key-123",
          sendReply := fun _ =>
            Except.error { code := "wallet_unreachable", message := "unused" } }
        "agent@example.com" "nope").2 =
      Except.error
        { code := "invalid_amount", message := "Amount must be a positive integer in sats",
          details := [("amount_sats", "nope")] } := by
  have h := parse_amount_characterization
  refine ⟨(h.1 "21").1, ?_, ?_⟩
  · exact (h.2.2
      { envKey := some "env-key-123",
        sendReply := fun _ =>
          Except.error { code := "wallet_unreachable", message := "unused" } }
      "agent@example.com" "nope"
      { code := "invalid_amount", message := "Amount must be a positive integer in sats",
        details := [("amount_sats", "nope")] } rfl).1
  · exact (h.2.2
      { envKey := some "env-key-123",
        sendReply := fun _ =>
          Except.error { code := "wallet_unreachable", message := "unused" } }
      "agent@example.com" "nope"
      { code := "invalid_amount", message := "Amount must be a positive integer in sats",
        details := [("amount_sats", "nope")] } rfl).2 "env-key-123" KeySource.env rfl

/-- Counterexample to C5 as stated: on an unsupported destination the
`send` command does fail with the classification error, but its event
trace already holds the credential-resolution step — not zero
credential-resolution steps as the claim requires (the source resolves
the API key before classifying the destination). -/
theorem send_counterexample_credentials_first :
    sendAction
        { configKey := some "config-key-123",
          sendReply := fun _ =>
            Except.error { code := "wallet_unreachable", message := "unused" } }
        "invalid-destination" "10" =
      ([SendEvent.resolveCredentials],
       Except.error
         { code := "unsupported_destination", message := "Unsupported destination format",
           details := [("destination", "invalid-destination")] }) ∧
    SendEvent.resolveCredentials ∈
      (sendAction
        { configKey := some "config-key-123",
          sendReply := fun _ =>
            Except.error { code := "wallet_unreachable", message := "unused" } }
        "invalid-destination" "10").1 :=
  ⟨rfl, by decide⟩

/-- Claim C5 (amended): when credentials resolve and the amount parses
but the destination is invalid, the `send` command fails with exactly
the classification error and its trace is exactly the local
credential-resolution step — zero outbound requests and zero ledger
appends occurred, though credential resolution (a local step) already
ran. -/
theorem classification_fails_before_network
    (env : SendEnv) (destination amountText : String)
    (key : String) (src : KeySource) (amount : Nat) (e : CliErr)
    (hk : resolveApiKey none env.envKey env.configKey true = Except.ok (key, src))
    (ha : parseAmountSats (some amountText) = Except.ok amount)
    (hd : detectDestination destination = Except.error e) :
    sendAction env destination amountText =
      ([SendEvent.resolveCredentials], Except.error e) := by
  simp [sendAction, hk, ha, hd]

/-- Witness for the amended C5 at a concrete run. -/
theorem classification_fails_before_network_witness :
    sendAction
        { envKey := some "env-key-123",
          sendReply := fun _ =>
            Except.error { code := "wallet_unreachable", message := "unused" } }
        "invalid-destination" "10" =
      ([SendEvent.resolveCredentials],
       Except.error
         { code := "unsupported_destination", message := "Unsupported destination format",
           details := [("destination", "invalid-destination")] }) := by
  exact classification_fails_before_network
    { envKey := some "env-key-123",
      sendReply := fun _ =>
        Except.error { code := "wallet_unreachable", message := "unused" } }
    "invalid-destination" "10" "env-key-123" KeySource.env 10
    { code := "unsupported_destination", message := "Unsupported destination format",
      details := [("destination", "invalid-destination")] }
    rfl rfl rfl

/-- Body of `POST /api/payouts` (source: the payload argument of
`createOnchainPayout` built in the `onchain send` action). -/
structure CreatePayoutRequest where
  amount_sats : Nat
  destination : String
  accept_terms : Bool
  payout_id : Option String := none
deriving DecidableEq, Repr

/-- Kickoff acknowledgment block (source: the `kickoff` field of
`OnchainPayoutCreateResult` in `src/wallet/client.ts`). -/
structure Kickoff where
  enqueued : Bool
  workflow : Option String := none
  kickoff_id : Option String := none
deriving DecidableEq, Repr

/-- Normalized reply of a successful payout creation (source: interface
`OnchainPayoutCreateResult` in `src/wallet/client.ts`). -/
structure OnchainCreateReply where
  payout_id : String
  status : String
  amount_sats : Int
  destination : String
  request_id : Option String := none
  kickoff : Kickoff
deriving DecidableEq, Repr

/-- Observable steps of the `onchain send` command, in program order. -/
inductive OnchainEvent where
  | resolveCredentials
  | networkCreatePayout (req : CreatePayoutRequest)
  | ledgerAppend (id : String)
deriving DecidableEq, Repr

/-- Environment of one `onchain send` invocation: ambient key material,
the outcome of the upstream create call, and the wall-clock timestamp
used for the ledger append (`new Date().toISOString()`). -/
structure OnchainSendEnv where
  envKey : Option String := none
  configKey : Option String := none
  createReply : CreatePayoutRequest → Except CliErr OnchainCreateReply
  nowTimestamp : String := ""

/-- JSON payload `onchain send` writes on success (source: the
`writeJson` object literal in the `onchain send` action). -/
structure OnchainSendOutput where
  payout_id : String
  status : String
  amount_sats : Int
  destination : String
  request_id : Option String
  kickoff : Kickoff
deriving DecidableEq, Repr

/-- The `onchain send` command action (source: the `onchain send`
handler in `src/commands/register.ts` lines 447-503) with its exact
program order: the consent flag is checked first — before config load,
credential resolution, amount parsing and any network call — and absent
consent the action throws `accept_terms_required` immediately.  With
consent it resolves credentials, parses the amount, posts the payout
creation, appends the ledger record and emits the output.  The flag is
`false` both when `--accept-terms` is absent and when it is explicitly
false (`!options?.acceptTerms`). -/
def onchainSendAction (env : OnchainSendEnv) (amountText destination : String)
    (payoutId : Option String) (acceptTerms : Bool) :
    List OnchainEvent × Except CliErr OnchainSendOutput :=
  if acceptTerms = false then
    ([], Except.error
      { code := "accept_terms_required",
        message := "Onchain send requires --accept-terms to confirm consent" })
  else
    match resolveApiKey none env.envKey env.configKey true with
    | Except.error e => ([OnchainEvent.resolveCredentials], Except.error e)
    | Except.ok _ =>
      match parseAmountSats (some amountText) with
      | Except.error e => ([OnchainEvent.resolveCredentials], Except.error e)
      | Except.ok amount =>
        let req : CreatePayoutRequest :=
          { amount_sats := amount, destination := destination,
            accept_terms := true, payout_id := payoutId }
        match env.createReply req with
        | Except.error e =>
          ([OnchainEvent.resolveCredentials, OnchainEvent.networkCreatePayout req],
           Except.error e)
        | Except.ok result =>
          ([OnchainEvent.resolveCredentials, OnchainEvent.networkCreatePayout req,
            OnchainEvent.ledgerAppend result.payout_id],
           Except.ok
             { payout_id := result.payout_id, status := result.status,
               amount_sats := result.amount_sats, destination := result.destination,
               request_id := result.request_id, kickoff := result.kickoff })

/-- Claim C6: without consent, `onchain send` fails with exactly the
`accept_terms_required` error and an empty event trace — zero outbound
requests, zero credential resolutions, zero ledger appends, for every
environment and every argument. -/
theorem onchain_send_requires_consent
    (env : OnchainSendEnv) (amountText destination : String)
    (payoutId : Option String) :
    onchainSendAction env amountText destination payoutId false =
      ([], Except.error
        { code := "accept_terms_required",
          message := "Onchain send requires --accept-terms to confirm consent" }) := by
  simp [onchainSendAction]

/-- JSON values as `JSON.parse` produces them.  Numbers are modelled as
integers (every numeric value the claims touch is an integer; the
constructor stands for a finite JavaScript number, `NaN`/`Infinity`
being unrepresentable in JSON source anyway). -/
inductive JsonValue where
  | null
  | bool (b : Bool)
  | num (n : Int)
  | str (s : String)
  | arr (items : List JsonValue)
  | obj (fields : List (String × JsonValue))

/-- First-match property lookup over an object's field list. -/
def lookupField : List (String × JsonValue) → String → Option JsonValue
  | [], _ => none
  | (k, v) :: rest, key => if k = key then some v else lookupField rest key

/-- Model of `(item as Record<string, unknown>)[key]`: `none` is the
JavaScript `undefined` of a missing property. -/
def getField (v : JsonValue) (key : String) : Option JsonValue :=
  match v with
  | JsonValue.obj fields => lookupField fields key
  | _ => none

/-- The `!item || typeof item !== "object"` guard of `normalizeRecords`:
objects and arrays pass (JavaScript arrays are objects), everything else
— including `null`, which the `!item` half rejects — fails. -/
def isJsObjectLike (v : JsonValue) : Bool :=
  match v with
  | JsonValue.obj _ => true
  | JsonValue.arr _ => true
  | _ => false

/-- Array test used by `normalizeRecords` (`Array.isArray(value)`). -/
def isJsArray (v : JsonValue) : Bool :=
  match v with
  | JsonValue.arr _ => true
  | _ => false

/-- String extraction (source: `asString` in `src/storage/payments.ts`):
non-strings give `null`; strings are trimmed and empty trims give
`null`. -/
def asString (v : Option JsonValue) : Option String :=
  match v with
  | some (JsonValue.str s) => if jsTrim s = "" then none else some (jsTrim s)
  | _ => none

/-- Model of `Number(s)` for strings, on the optional-sign decimal
integer fragment; other numeric syntaxes (fractions, exponents, hex)
are outside the fragment the embedded claims touch and conservatively
give `none` (in the source they would give a finite non-integer or
`NaN`). -/
def jsStringToNumber (s : String) : Option Int :=
  let t := jsTrim s
  if isDigitString t then some (Int.ofNat (digitsToNat t))
  else
    match t.data with
    | '-' :: rest =>
      if isDigitString ⟨rest⟩ then some (-(Int.ofNat (digitsToNat ⟨rest⟩))) else none
    | '+' :: rest =>
      if isDigitString ⟨rest⟩ then some (Int.ofNat (digitsToNat ⟨rest⟩)) else none
    | _ => none

/-- Numeric extraction (source: `toNumber` in
`src/storage/payments.ts`): finite numbers pass through; non-empty
strings go through `Number(...)` and must come out finite; everything
else gives `null`. -/
def toNumber (v : Option JsonValue) : Option Int :=
  match v with
  | some (JsonValue.num n) => some n
  | some (JsonValue.str s) => if jsTrim s = "" then none else jsStringToNumber s
  | _ => none

/-- Lifecycle extraction (source: `asPaylinkLifecycle` in
`src/storage/payments.ts`): trimmed string equal to one of the five
canonical values, else `null`. -/
def asPaylinkLifecycle (v : Option JsonValue) : Option PaymentPaylinkLifecycle :=
  match asString v with
  | none => none
  | some n =>
    if n = "created" then some PaymentPaylinkLifecycle.created
    else if n = "active" then some PaymentPaylinkLifecycle.active
    else if n = "paid" then some PaymentPaylinkLifecycle.paid
    else if n = "expired" then some PaymentPaylinkLifecycle.expired
    else if n = "dead" then some PaymentPaylinkLifecycle.dead
    else none

/-- Normalization of one stored entry (source: the loop body of
`normalizeRecords` in `src/storage/payments.ts`; a `continue` becomes
`none`).  An entry needs a usable id, amount, status and timestamp;
`type` is coerced to `send` unless it reads exactly `receive`; all
remaining fields are optional. -/
def normalizeItem (item : JsonValue) : Option PaymentHistoryRecord :=
  if isJsObjectLike item = false then none
  else
    match asString (getField item "id"), toNumber (getField item "amount_sats"),
          asString (getField item "status"), asString (getField item "timestamp") with
    | some id, some amountSats, some status, some timestamp =>
      some
        { id := id
          type :=
            if asString (getField item "type") = some "receive" then PaymentType.receive
            else PaymentType.send
          amount_sats := amountSats
          status := status
          timestamp := timestamp
          fee_sats := toNumber (getField item "fee_sats")
          preimage := asString (getField item "preimage")
          source := asString (getField item "source")
          paylink_id := asString (getField item "paylink_id")
          paylink_attempt_id := asString (getField item "paylink_attempt_id")
          paylink_lifecycle := asPaylinkLifecycle (getField item "paylink_lifecycle")
          paylink_amount_sats := toNumber (getField item "paylink_amount_sats")
          onchain_network := asString (getField item "onchain_network")
          onchain_address := asString (getField item "onchain_address")
          onchain_payout_id := asString (getField item "onchain_payout_id") }
    | _, _, _, _ => none

/-- Record normalization (source: `normalizeRecords`): non-arrays give
the empty ledger; array entries that fail the checks are dropped. -/
def normalizeRecords (value : JsonValue) : List PaymentHistoryRecord :=
  match value with
  | JsonValue.arr items => items.filterMap normalizeItem
  | _ => []

/-- Ledger read (source: `readPayments` in `src/storage/payments.ts`).
The argument is the outcome of `readFile` + `JSON.parse`; the source's
try/catch makes any failure an empty ledger. -/
def readPayments (raw : Except Unit JsonValue) : List PaymentHistoryRecord :=
  match raw with
  | Except.error _ => []
  | Except.ok v => normalizeRecords v

theorem asString_trimmed (v : Option JsonValue) (s : String)
    (h : asString v = some s) : s ≠ "" ∧ jsTrim s = s := by
  cases v with
  | none => simp [asString] at h
  | some jv =>
    cases jv with
    | null => simp [asString] at h
    | bool b => simp [asString] at h
    | num n => simp [asString] at h
    | arr xs => simp [asString] at h
    | obj fs => simp [asString] at h
    | str str =>
      by_cases he : jsTrim str = ""
      · simp [asString, he] at h
      · simp [asString, he] at h
        exact ⟨by rw [← h]; exact he, by rw [← h]; exact jsTrim_idem str⟩

theorem normalizeItem_fields (item : JsonValue) (rec : PaymentHistoryRecord)
    (h : normalizeItem item = some rec) :
    asString (getField item "id") = some rec.id ∧
    toNumber (getField item "amount_sats") = some rec.amount_sats ∧
    asString (getField item "status") = some rec.status ∧
    asString (getField item "timestamp") = some rec.timestamp ∧
    rec.type =
      (if asString (getField item "type") = some "receive" then PaymentType.receive
       else PaymentType.send) := by
  unfold normalizeItem at h
  by_cases hobj : isJsObjectLike item = false
  · simp [hobj] at h
  · simp [hobj] at h
    cases hid : asString (getField item "id") with
    | none => rw [hid] at h; simp at h
    | some id =>
      cases hamt : toNumber (getField item "amount_sats") with
      | none => rw [hid, hamt] at h; simp at h
      | some amt =>
        cases hst : asString (getField item "status") with
        | none => rw [hid, hamt, hst] at h; simp at h
        | some status =>
          cases hts : asString (getField item "timestamp") with
          | none => rw [hid, hamt, hst, hts] at h; simp at h
          | some timestamp =>
            rw [hid, hamt, hst, hts] at h
            simp only [Option.some.injEq] at h
            subst h
            refine ⟨?_, ?_, ?_, ?_, ?_⟩ <;> simp [hid, hamt, hst, hts]

/-- Claim C10: whatever the backing store holds, `readPayments` returns
only well-formed records — every returned record has a non-empty,
already-trimmed id, status and timestamp, its numeric amount is the one
extracted by `toNumber`, and its type is exactly `send` or `receive`,
with any type value other than `receive` coerced to `send`; non-array
JSON and parse failures give the empty ledger, and failing entries are
silently dropped (normalization is total). -/
theorem readPayments_wellFormed :
    (∀ (raw : Except Unit JsonValue) (rec : PaymentHistoryRecord),
      rec ∈ readPayments raw →
      rec.id ≠ "" ∧ jsTrim rec.id = rec.id ∧
      rec.status ≠ "" ∧ jsTrim rec.status = rec.status ∧
      rec.timestamp ≠ "" ∧ jsTrim rec.timestamp = rec.timestamp ∧
      (rec.type = PaymentType.send ∨ rec.type = PaymentType.receive)) ∧
    (∀ (item : JsonValue) (rec : PaymentHistoryRecord),
      normalizeItem item = some rec →
      toNumber (getField item "amount_sats") = some rec.amount_sats ∧
      (asString (getField item "type") = some "receive" →
        rec.type = PaymentType.receive) ∧
      (asString (getField item "type") ≠ some "receive" →
        rec.type = PaymentType.send)) ∧
    (∀ v : JsonValue, isJsArray v = false → readPayments (Except.ok v) = []) ∧
    readPayments (Except.error ()) = [] := by
  refine ⟨fun raw rec hmem => ?_, fun item rec h => ?_, fun v hv => ?_, rfl⟩
  · cases raw with
    | error e => simp [readPayments] at hmem
    | ok v =>
      cases v with
      | arr items =>
        simp only [readPayments, normalizeRecords, List.mem_filterMap] at hmem
        obtain ⟨item, hitem, hni⟩ := hmem
        obtain ⟨hid, hamt, hst, hts, hty⟩ := normalizeItem_fields item rec hni
        obtain ⟨hid1, hid2⟩ := asString_trimmed _ _ hid
        obtain ⟨hst1, hst2⟩ := asString_trimmed _ _ hst
        obtain ⟨hts1, hts2⟩ := asString_trimmed _ _ hts
        refine ⟨hid1, hid2, hst1, hst2, hts1, hts2, ?_⟩
        by_cases hr : asString (getField item "type") = some "receive"
        · right; rw [hty, if_pos hr]
        · left; rw [hty, if_neg hr]
      | null => simp [readPayments, normalizeRecords] at hmem
      | bool b => simp [readPayments, normalizeRecords] at hmem
      | num n => simp [readPayments, normalizeRecords] at hmem
      | str s => simp [readPayments, normalizeRecords] at hmem
      | obj fs => simp [readPayments, normalizeRecords] at hmem
  · obtain ⟨hid, hamt, hst, hts, hty⟩ := normalizeItem_fields item rec h
    refine ⟨hamt, fun hr => ?_, fun hr => ?_⟩
    · rw [hty, if_pos hr]
    · rw [hty, if_neg hr]
  · cases v with
    | arr items => simp [isJsArray] at hv
    | null => rfl
    | bool b => rfl
    | num n => rfl
    | str s => rfl
    | obj fs => rfl

/-- Concrete backing store for the C10 witness: one well-formed legacy
entry, one non-object entry and one entry with a whitespace-only id. -/
def rawStoreExample : Except Unit JsonValue :=
  Except.ok (JsonValue.arr
    [JsonValue.obj
      [("id", JsonValue.str "legacy_001"), ("type", JsonValue.str "receive"),
       ("amount_sats", JsonValue.num 42), ("status", JsonValue.str "completed"),
       ("timestamp", JsonValue.str "2026-01-01T00:00:00.000Z")],
     JsonValue.str "junk",
     JsonValue.obj [("id", JsonValue.str "   ")]])

/-- The single record the C10 witness store normalizes to. -/
def recExample : PaymentHistoryRecord :=
  { id := "legacy_001", type := PaymentType.receive, amount_sats := 42,
    status := "completed", timestamp := "2026-01-01T00:00:00.000Z" }

/-- Witness for C10 at the concrete store: the surviving record is
well-formed, its amount and type come from the stated extraction, and a
non-array store reads as the empty ledger. -/
theorem readPayments_wellFormed_witness :
    (recExample.id ≠ "" ∧ jsTrim recExample.id = recExample.id ∧
     recExample.status ≠ "" ∧ jsTrim recExample.status = recExample.status ∧
     recExample.timestamp ≠ "" ∧ jsTrim recExample.timestamp = recExample.timestamp ∧
     (recExample.type = PaymentType.send ∨ recExample.type = PaymentType.receive)) ∧
    (toNumber (getField (JsonValue.obj
        [("id", JsonValue.str "legacy_001"), ("type", JsonValue.str "receive"),
         ("amount_sats", JsonValue.num 42), ("status", JsonValue.str "completed"),
         ("timestamp", JsonValue.str "2026-01-01T00:00:00.000Z")]) "amount_sats") =
       some recExample.amount_sats) ∧
    readPayments (Except.ok (JsonValue.str "oops")) = [] := by
  have h := readPayments_wellFormed
  refine ⟨h.1 rawStoreExample recExample ?_, ?_, h.2.2.1 (JsonValue.str "oops") rfl⟩
  · have hl : readPayments rawStoreExample = [recExample] := rfl
    rw [hl]
    exact List.mem_singleton_self recExample
  · exact (h.2.1 (JsonValue.obj
      [("id", JsonValue.str "legacy_001"), ("type", JsonValue.str "receive"),
       ("amount_sats", JsonValue.num 42), ("status", JsonValue.str "completed"),
       ("timestamp", JsonValue.str "2026-01-01T00:00:00.000Z")]) recExample rfl).1
